import Mathlib

/-!
Verification of the metrics/report engine of the Patel Logistics daily-recap
application (`src/app.py`).  The engine consists of the numeric coercion
`safe_int`, the ratio calculator `pct`, the record validator `validate`,
and the two renderers `render_overview` and `render_message`.

Modelling choices:
* Python runtime values that reach the engine are modelled by `Value`
  (integers, floats, strings, `None`).  Python floats are modelled as exact
  rationals; every derived percentage is therefore an element of `ℚ`,
  which contains no NaN and no infinity.
* `int(x)` together with the `try/except` of `safe_int` is modelled as a
  total function: integer pass-through, truncation toward zero for floats,
  base-10 string parsing (optional surrounding whitespace, optional sign,
  digits with Python's single-underscore grouping), and `0` on any failure.
* String formatting (`f"{x:.1f}"`, `f"{x:,}"`, `str(x)`) is modelled by
  `fmt1f`, `fmtThousands` and `pyStr`; `fmt1f` performs round-half-to-even
  at one decimal on the exact rational value.
-/

/-- A Python runtime value as it can reach the engine: an integer, a float
(modelled as an exact rational), a string, or `None`. -/
inductive Value where
  | vInt (n : Int)
  | vFloat (q : ℚ)
  | vStr (s : String)
  | vNone
deriving DecidableEq

/-- Drop leading and trailing whitespace characters, modelling the
whitespace-stripping Python's `int` applies to string arguments. -/
def trimChars (l : List Char) : List Char :=
  ((l.dropWhile Char.isWhitespace).reverse.dropWhile Char.isWhitespace).reverse

/-- Numeric value of an ASCII digit character. -/
def digitVal (c : Char) : Nat := c.toNat - 48

/-- Parse a nonempty run of base-10 digits, allowing Python's single
underscore between two digits.  `lastDigit` records whether the previous
character was a digit (so an underscore is currently allowed). -/
def pyDigitsGo : List Char → Nat → Bool → Option Nat
  | [], acc, lastDigit => if lastDigit then some acc else none
  | c :: rest, acc, lastDigit =>
    if c.isDigit then pyDigitsGo rest (10 * acc + digitVal c) true
    else if c = '_' && lastDigit then pyDigitsGo rest acc false
    else none

/-- Model of Python's `int` applied to a string: optional surrounding
whitespace, optional sign, then base-10 digits; `none` when the string does
not unambiguously represent an integer (so `int` raises `ValueError`). -/
def pyParseInt (s : String) : Option Int :=
  match trimChars s.data with
  | '+' :: rest => (pyDigitsGo rest 0 false).map (fun n => (n : Int))
  | '-' :: rest => (pyDigitsGo rest 0 false).map (fun n => -(n : Int))
  | l => (pyDigitsGo l 0 false).map (fun n => (n : Int))

/-- Truncation toward zero of an exact rational, modelling Python's
`int(float)`. -/
def ratTrunc (q : ℚ) : Int :=
  if 0 ≤ q.num then Int.ofNat (q.num.toNat / q.den)
  else - Int.ofNat ((- q.num).toNat / q.den)

/-- `safe_int` from src/app.py lines 48-52: `int(x)` with every conversion
failure absorbed into the default `0`. -/
def safe_int (x : Value) : Int :=
  match x with
  | .vInt n => n
  | .vFloat q => ratTrunc q
  | .vStr s => (pyParseInt s).getD 0
  | .vNone => 0

/-- `pct` from src/app.py lines 54-56: coerce both arguments with
`safe_int`; a zero coerced denominator yields `0.0`, otherwise the result
is `n / d * 100`, unrounded. -/
def pct (n d : Value) : ℚ :=
  let n' := safe_int n
  let d' := safe_int d
  if d' = 0 then 0 else ((n' : ℚ) / (d' : ℚ)) * 100

/-- One submission record (the `entry` dict built by `collect_inputs`,
src/app.py lines 233-246): a flat mapping of the 28 canonical fields to
runtime values, in the canonical `COLUMNS` order of src/app.py lines 36-45. -/
structure Entry where
  day : Value
  the_date : Value
  total_routes : Value
  amzl_late : Value
  add_routes : Value
  total_trainings : Value
  total_packages : Value
  packages_delivered : Value
  rescues_completed : Value
  rescuing_das : Value
  returned_total : Value
  returned_uta : Value
  returned_bc : Value
  returned_oodt : Value
  returned_other : Value
  violations : Value
  seatbelt : Value
  speeding : Value
  hard_braking : Value
  injuries : Value
  coaching : Value
  das_exceeding_4_days : Value
  adp_vs_paid_hours : Value
  grounded : Value
  damages : Value
  complaints : Value
  station_feedback : Value
  route_failures : Value
deriving DecidableEq

/-- The nine derived percentages computed by `render_overview`
(src/app.py lines 301-312). -/
structure OverviewMetrics where
  deliveryRatePct : ℚ
  returnRatePct : ℚ
  utaPct : ℚ
  bcPct : ℚ
  oodtPct : ℚ
  otherPct : ℚ
  seatbeltPct : ℚ
  speedingPct : ℚ
  hardBrakingPct : ℚ
deriving DecidableEq

/-- The metric computations of `render_overview`, src/app.py lines 293-312:
the counts are coerced once with `safe_int`; the return-category and
violation-category denominators are floored at 1 with `max`; the three
violation numerators are passed to `pct` as the raw entry values. -/
def computeOverview (e : Entry) : OverviewMetrics :=
  let total := safe_int e.total_packages
  let delivered := safe_int e.packages_delivered
  let returned := safe_int e.returned_total
  let uta := safe_int e.returned_uta
  let bc := safe_int e.returned_bc
  let oodt := safe_int e.returned_oodt
  let other := safe_int e.returned_other
  let vio_tot := safe_int e.violations
  { deliveryRatePct := pct (.vInt delivered) (.vInt total)
    returnRatePct := pct (.vInt returned) (.vInt total)
    utaPct := pct (.vInt uta) (.vInt (max returned 1))
    bcPct := pct (.vInt bc) (.vInt (max returned 1))
    oodtPct := pct (.vInt oodt) (.vInt (max returned 1))
    otherPct := pct (.vInt other) (.vInt (max returned 1))
    seatbeltPct := pct e.seatbelt (.vInt (max vio_tot 1))
    speedingPct := pct e.speeding (.vInt (max vio_tot 1))
    hardBrakingPct := pct e.hard_braking (.vInt (max vio_tot 1)) }

/-- Python `str(x)` for the runtime values that reach the renderers.
Integers and strings are exact; `None` prints as `"None"`; a float with
denominator 1 prints as `"<n>.0"` (the non-integral float case is not
exercised by any claim and is approximated by a fraction rendering). -/
def pyStr (v : Value) : String :=
  match v with
  | .vInt n => toString n
  | .vStr s => s
  | .vNone => "None"
  | .vFloat q =>
    if q.den = 1 then toString q.num ++ ".0"
    else toString q.num ++ "/" ++ toString q.den

/-- Insert a comma after every complete group of three characters, on a
reversed digit list; `k` counts the digits already emitted in the current
group. -/
def groupRev : List Char → Nat → List Char
  | [], _ => []
  | c :: rest, k =>
    if k = 3 then ',' :: c :: groupRev rest 1 else c :: groupRev rest (k + 1)

/-- Python's thousands-separator format `f"{n:,}"` for an integer. -/
def fmtThousands (n : Int) : String :=
  (if n < 0 then "-" else "") ++
    String.mk ((groupRev (toString n.natAbs).data.reverse 0).reverse)

/-- Round `n / d` (with `d > 0`) to the nearest integer, ties to even. -/
def rheDiv (n d : Int) : Int :=
  let f := Int.ediv n d
  let r := Int.emod n d
  if 2 * r < d then f else if d < 2 * r then f + 1
  else if Int.emod f 2 = 0 then f else f + 1

/-- Python's one-decimal float format `f"{q:.1f}"`, on the exact rational
model of the float: round `q * 10` half-to-even, then print the signed
result with one digit after the decimal point. -/
def fmt1f (q : ℚ) : String :=
  let m := rheDiv (q.num * 10) (q.den : Int)
  (if m < 0 then "-" else "") ++
    toString (m.natAbs / 10) ++ "." ++ toString (m.natAbs % 10)

/-- The breakdown-mismatch message of `validate` (src/app.py line 259),
naming the computed category sum and the stated returned total. -/
def breakdownMsg (parts rtot : Int) : String :=
  "Return breakdown (" ++ toString parts ++ ") must equal Returned total (" ++
    toString rtot ++ ")."

/-- The over-delivery message of `validate` (src/app.py line 257). -/
def exceedMsg : String :=
  "Packages Delivered + Packages Returned cannot exceed Total Packages."

/-- `validate` from src/app.py lines 249-260: the two arithmetic rules are
checked independently and every violated rule appends its message. -/
def validate (e : Entry) : List String :=
  let tp := safe_int e.total_packages
  let pdv := safe_int e.packages_delivered
  let rtot := safe_int e.returned_total
  let parts := safe_int e.returned_uta + safe_int e.returned_bc +
    safe_int e.returned_oodt + safe_int e.returned_other
  (if tp < pdv + rtot then [exceedMsg] else []) ++
    (if rtot ≠ parts then [breakdownMsg parts rtot] else [])

/-- The overview header line (src/app.py line 315). -/
def overviewLine1 (e : Entry) : String :=
  "OVERVIEW – " ++ pyStr e.day ++ " " ++ pyStr e.the_date

/-- The delivery/return-rate line of the overview (src/app.py line 316):
rates with one decimal, delivered and total counts with thousands
separators. -/
def overviewLine2 (e : Entry) : String :=
  "• Delivery Rate: " ++ fmt1f (computeOverview e).deliveryRatePct ++
  "%  |  Return Rate: " ++ fmt1f (computeOverview e).returnRatePct ++
  "%  (Delivered " ++ fmtThousands (safe_int e.packages_delivered) ++
  " / Total " ++ fmtThousands (safe_int e.total_packages) ++ ")"

/-- The return-breakdown line of the overview (src/app.py line 317):
category counts with plain `str`, shares with one decimal. -/
def overviewLine3 (e : Entry) : String :=
  "• Return Breakdown: UTA " ++ toString (safe_int e.returned_uta) ++
  " (" ++ fmt1f (computeOverview e).utaPct ++
  "%) | BC " ++ toString (safe_int e.returned_bc) ++
  " (" ++ fmt1f (computeOverview e).bcPct ++
  "%) | OODT " ++ toString (safe_int e.returned_oodt) ++
  " (" ++ fmt1f (computeOverview e).oodtPct ++
  "%) | Other " ++ toString (safe_int e.returned_other) ++
  " (" ++ fmt1f (computeOverview e).otherPct ++ "%)"

/-- The violations line of the overview (src/app.py line 318): the total
with plain `str`, the three category counts verbatim from the raw entry
values, shares with one decimal. -/
def overviewLine4 (e : Entry) : String :=
  "• Violations: " ++ toString (safe_int e.violations) ++
  "  → Seatbelt " ++ pyStr e.seatbelt ++
  " (" ++ fmt1f (computeOverview e).seatbeltPct ++
  "%) | Speeding " ++ pyStr e.speeding ++
  " (" ++ fmt1f (computeOverview e).speedingPct ++
  "%) | Hard Braking " ++ pyStr e.hard_braking ++
  " (" ++ fmt1f (computeOverview e).hardBrakingPct ++ "%)"

/-- `render_overview` from src/app.py lines 292-320: the four overview
lines joined by newlines. -/
def render_overview (e : Entry) : String :=
  overviewLine1 e ++ "\n" ++ overviewLine2 e ++ "\n" ++
    overviewLine3 e ++ "\n" ++ overviewLine4 e

/-- The 29 fixed text segments of the Full Recap template of
`render_message` (src/app.py lines 322-354), in order. -/
def messageSegments : List String :=
  ["📢 Daily Operations Recap – ",
   " ",
   " 📢\n\n📦 Volume & Routes\n🔹 Total Routes:  ",
   "\n🔹 AMZL Late Cancels: ",
   "\n🔹 Additional Routes Picked Up:  ",
   "\n🔹 Total Trainings: ",
   "\n🔹 Total Packages: ",
   "\n\n🚛 Driver Performance\n✅ Packages Delivered: ",
   "\n🔄 Rescues Completed: ",
   " (By: ",
   ")\n📦 Packages Returned: ",
   " (UTA: ",
   " | BC: ",
   " | OODT: ",
   " | Other: ",
   ")\n\n⚠ Safety & Compliance\n🚦 Violations: ",
   " (Seatbelt: ",
   " | Speeding: ",
   " | Hard Braking: ",
   ")\n🚑 Injuries: ",
   " \n📋 Drivers Needing Coaching: ",
   "\n\n💰 Labor & Cost Metrics\n⏳ DAS EXCEEDING 4 DAYS: ",
   "\n📊 ADP vs. Paid Hours Discrepancies: ",
   "\n\n🚐 Fleet & Vehicle Health\n🛑 Grounded: ",
   "\n⚠ Damages: ",
   "\n\n📌 Escalations & Issues\n📞 Customer Complaints: ",
   "\n📍 Amazon Station Feedback: ",
   "\n⚠ Route Failures: ",
   "\n"]

/-- The 28 interpolated field values of the Full Recap template, in the
order in which the template mentions them — which is exactly the canonical
`COLUMNS` order of src/app.py lines 36-45. -/
def messageFields (e : Entry) : List String :=
  [pyStr e.day, pyStr e.the_date,
   pyStr e.total_routes, pyStr e.amzl_late, pyStr e.add_routes,
   pyStr e.total_trainings, pyStr e.total_packages,
   pyStr e.packages_delivered, pyStr e.rescues_completed,
   pyStr e.rescuing_das,
   pyStr e.returned_total, pyStr e.returned_uta, pyStr e.returned_bc,
   pyStr e.returned_oodt, pyStr e.returned_other,
   pyStr e.violations, pyStr e.seatbelt, pyStr e.speeding,
   pyStr e.hard_braking, pyStr e.injuries, pyStr e.coaching,
   pyStr e.das_exceeding_4_days, pyStr e.adp_vs_paid_hours,
   pyStr e.grounded, pyStr e.damages,
   pyStr e.complaints, pyStr e.station_feedback, pyStr e.route_failures]

/-- Alternate fixed segments with interpolated values: the general shape of
an f-string. -/
def interleave : List String → List String → String
  | [], [] => ""
  | [], v :: vs => v ++ interleave [] vs
  | [t], [] => t
  | t :: ts, [] => t ++ interleave ts []
  | t :: ts, v :: vs => t ++ (v ++ interleave ts vs)

/-- `render_message` from src/app.py lines 322-354: the Full Recap
f-string, echoing all 28 fields verbatim between the fixed template
segments, with no computation. -/
def render_message (e : Entry) : String :=
  "📢 Daily Operations Recap – " ++ pyStr e.day ++ " " ++ pyStr e.the_date ++
  " 📢\n\n📦 Volume & Routes\n🔹 Total Routes:  " ++ pyStr e.total_routes ++
  "\n🔹 AMZL Late Cancels: " ++ pyStr e.amzl_late ++
  "\n🔹 Additional Routes Picked Up:  " ++ pyStr e.add_routes ++
  "\n🔹 Total Trainings: " ++ pyStr e.total_trainings ++
  "\n🔹 Total Packages: " ++ pyStr e.total_packages ++
  "\n\n🚛 Driver Performance\n✅ Packages Delivered: " ++ pyStr e.packages_delivered ++
  "\n🔄 Rescues Completed: " ++ pyStr e.rescues_completed ++
  " (By: " ++ pyStr e.rescuing_das ++
  ")\n📦 Packages Returned: " ++ pyStr e.returned_total ++
  " (UTA: " ++ pyStr e.returned_uta ++
  " | BC: " ++ pyStr e.returned_bc ++
  " | OODT: " ++ pyStr e.returned_oodt ++
  " | Other: " ++ pyStr e.returned_other ++
  ")\n\n⚠ Safety & Compliance\n🚦 Violations: " ++ pyStr e.violations ++
  " (Seatbelt: " ++ pyStr e.seatbelt ++
  " | Speeding: " ++ pyStr e.speeding ++
  " | Hard Braking: " ++ pyStr e.hard_braking ++
  ")\n🚑 Injuries: " ++ pyStr e.injuries ++
  " \n📋 Drivers Needing Coaching: " ++ pyStr e.coaching ++
  "\n\n💰 Labor & Cost Metrics\n⏳ DAS EXCEEDING 4 DAYS: " ++ pyStr e.das_exceeding_4_days ++
  "\n📊 ADP vs. Paid Hours Discrepancies: " ++ pyStr e.adp_vs_paid_hours ++
  "\n\n🚐 Fleet & Vehicle Health\n🛑 Grounded: " ++ pyStr e.grounded ++
  "\n⚠ Damages: " ++ pyStr e.damages ++
  "\n\n📌 Escalations & Issues\n📞 Customer Complaints: " ++ pyStr e.complaints ++
  "\n📍 Amazon Station Feedback: " ++ pyStr e.station_feedback ++
  "\n⚠ Route Failures: " ++ pyStr e.route_failures ++
  "\n"

/-- `leadsWith p l` holds when the character list `p` is an initial run of
`l`. -/
def leadsWith : List Char → List Char → Bool
  | [], _ => true
  | _ :: _, [] => false
  | a :: pa, b :: l => a == b && leadsWith pa l

/-- `hasSub p l` holds when `p` occurs contiguously somewhere in `l`. -/
def hasSub (pat : List Char) : List Char → Bool
  | [] => leadsWith pat []
  | c :: rest => leadsWith pat (c :: rest) || hasSub pat rest

/-- `strContains s pat` holds when `pat` occurs contiguously in `s`. -/
def strContains (s pat : String) : Bool :=
  hasSub pat.data s.data

/-- A neutral record: every field set the way an untouched form would
submit it (text fields empty, numeric widgets zero). -/
def baseEntry : Entry :=
  { day := .vStr "Mon", the_date := .vStr "2025-01-01",
    total_routes := .vInt 0, amzl_late := .vInt 0, add_routes := .vInt 0,
    total_trainings := .vStr "", total_packages := .vInt 0,
    packages_delivered := .vInt 0, rescues_completed := .vInt 0,
    rescuing_das := .vStr "",
    returned_total := .vInt 0, returned_uta := .vInt 0,
    returned_bc := .vInt 0, returned_oodt := .vInt 0,
    returned_other := .vInt 0,
    violations := .vInt 0, seatbelt := .vInt 0, speeding := .vInt 0,
    hard_braking := .vInt 0, injuries := .vInt 0, coaching := .vStr "",
    das_exceeding_4_days := .vStr "", adp_vs_paid_hours := .vStr "",
    grounded := .vStr "", damages := .vInt 0,
    complaints := .vInt 0, station_feedback := .vStr "",
    route_failures := .vInt 0 }

/-- The end-to-end scenario record of the spec: 200 packages, 180
delivered, 20 returned split 5/5/5/5, 10 violations split 2/3/5. -/
def scenarioEntry : Entry :=
  { baseEntry with
    total_packages := .vInt 200, packages_delivered := .vInt 180,
    returned_total := .vInt 20, returned_uta := .vInt 5,
    returned_bc := .vInt 5, returned_oodt := .vInt 5,
    returned_other := .vInt 5,
    violations := .vInt 10, seatbelt := .vInt 2, speeding := .vInt 3,
    hard_braking := .vInt 5 }

/-- The sum of the four return-category counts of a record, as `validate`
computes it (src/app.py line 254). -/
def partsSum (e : Entry) : Int :=
  safe_int e.returned_uta + safe_int e.returned_bc +
    safe_int e.returned_oodt + safe_int e.returned_other

/-- The first validator test record of the spec: 100 packages, 60
delivered, 50 returned (consistently split), so only rule 1 fires. -/
def overEntry : Entry :=
  { baseEntry with
    total_packages := .vInt 100, packages_delivered := .vInt 60,
    returned_total := .vInt 50, returned_uta := .vInt 50 }

/-- The second validator test record of the spec: returned total 10 but
categories summing to 12, so only rule 2 fires. -/
def mismatchEntry : Entry :=
  { baseEntry with
    total_packages := .vInt 100, returned_total := .vInt 10,
    returned_uta := .vInt 12 }

/-- A record carrying a negative delivered count, reachable because the
numeric coercion passes negative integers through unchanged. -/
def negEntry : Entry :=
  { baseEntry with
    total_packages := .vInt 10, packages_delivered := .vInt (-5) }

/-- A record with zero returned total but a nonzero UTA category count:
the floored and unfloored category-percentage paths diverge on it. -/
def ce6 : Entry :=
  { baseEntry with returned_total := .vInt 0, returned_uta := .vInt 5 }

/-- A record whose UTA category count has four digits, exposing which
overview slots use the thousands-separator format. -/
def ce9 : Entry :=
  { baseEntry with returned_total := .vInt 1234, returned_uta := .vInt 1234 }



theorem leadsWith_self_append (p rest : List Char) :
    leadsWith p (p ++ rest) = true := by
  induction p with
  | nil => rfl
  | cons a pa ih => simp [leadsWith, ih]

theorem hasSub_append_right (pat x l : List Char) (h : hasSub pat l = true) :
    hasSub pat (x ++ l) = true := by
  induction x with
  | nil => simpa using h
  | cons c x' ih => simp [hasSub, List.append_eq, ih]

theorem hasSub_self_append (pat y : List Char) :
    hasSub pat (pat ++ y) = true := by
  cases pat with
  | nil =>
    cases y with
    | nil => rfl
    | cons c ys => simp [hasSub, leadsWith]
  | cons a pa =>
    have h := leadsWith_self_append (a :: pa) y
    simp only [List.cons_append] at h ⊢
    simp [hasSub, h]

theorem strContains_of_eq (s a p b : String) (h : s = a ++ (p ++ b)) :
    strContains s p = true := by
  subst h
  unfold strContains
  rw [String.data_append, String.data_append]
  exact hasSub_append_right _ _ _ (hasSub_self_append _ _)

/-- Claim C1: `pct` first coerces both arguments with `safe_int`; a coerced
denominator of exactly 0 yields `0.0` (a plain rational, neither an error
nor NaN/infinity — the codomain `ℚ` has no such values and `pct` is total),
and otherwise the result is the coerced numerator divided by the coerced
denominator times 100, unrounded. -/
theorem pct_zero_denominator_policy :
    (∀ n d : Value, pct n d =
      if safe_int d = 0 then 0 else ((safe_int n : ℚ) / (safe_int d : ℚ)) * 100)
    ∧ (∀ n : Value, pct n (.vInt 0) = 0)
    ∧ (∀ n d : Value, safe_int d ≠ 0 →
        pct n d = ((safe_int n : ℚ) / (safe_int d : ℚ)) * 100) := by
  refine ⟨fun n d => rfl, fun n => rfl, fun n d h => ?_⟩
  simp [pct, h]

/-- Witness for C1: the zero-denominator branch and the regular branch of
`pct`, each at a concrete input. -/
theorem pct_zero_denominator_policy_witness :
    pct (.vStr "whatever") (.vInt 0) = 0 ∧
    pct (.vInt 3) (.vInt 4) = (((3 : Int) : ℚ) / ((4 : Int) : ℚ)) * 100 :=
  ⟨pct_zero_denominator_policy.2.1 _,
   pct_zero_denominator_policy.2.2 (.vInt 3) (.vInt 4) (by decide)⟩

/-- Claim C4: the numeric coercion `safe_int` is total (it is a Lean
function into `Int`, so it signals no error for any input); it returns the
represented integer for integer, parseable-string and integral-float
inputs, and `0` for anything whose conversion fails (empty string,
non-numeric text, `None`). -/
theorem safe_int_total_coercion :
    (∀ n : Int, safe_int (.vInt n) = n)
    ∧ safe_int .vNone = 0
    ∧ safe_int (.vStr "") = 0
    ∧ safe_int (.vStr "abc") = 0
    ∧ safe_int (.vStr "7") = 7
    ∧ safe_int (.vFloat 7) = 7
    ∧ (∀ s : String, pyParseInt s = none → safe_int (.vStr s) = 0)
    ∧ (∀ (s : String) (k : Int), pyParseInt s = some k → safe_int (.vStr s) = k) := by
  refine ⟨fun n => rfl, rfl, by decide, by decide, by decide, by decide,
    fun s h => ?_, fun s k h => ?_⟩
  · simp [safe_int, h]
  · simp [safe_int, h]

/-- Witness for C4: the failure branch and the success branch of string
coercion, each at a concrete string. -/
theorem safe_int_total_coercion_witness :
    safe_int (.vStr "not a number") = 0 ∧ safe_int (.vStr " 12 ") = 12 :=
  ⟨safe_int_total_coercion.2.2.2.2.2.2.1 "not a number" (by decide),
   safe_int_total_coercion.2.2.2.2.2.2.2 " 12 " 12 (by decide)⟩

/-- Claim C10: the coercion enforces no non-negativity — negative integers
pass through `safe_int` unchanged, `pct (-5) 10` is `-50.0`, and a record
with a negative delivered count gets a negative delivery rate in the
overview metrics instead of being rejected or zeroed. -/
theorem negative_values_pass_through :
    (∀ x : Int, x < 0 → safe_int (.vInt x) = x)
    ∧ pct (.vInt (-5)) (.vInt 10) = -50
    ∧ (computeOverview negEntry).deliveryRatePct = -50
    ∧ (computeOverview negEntry).deliveryRatePct < 0 := by
  have h1 : pct (.vInt (-5)) (.vInt 10) = -50 := by
    norm_num [pct, safe_int]
  have h2 : (computeOverview negEntry).deliveryRatePct = -50 := by
    have : (computeOverview negEntry).deliveryRatePct =
        pct (.vInt (-5)) (.vInt 10) := rfl
    rw [this, h1]
  exact ⟨fun x _ => rfl, h1, h2, by rw [h2]; norm_num⟩

/-- Witness for C10: the pass-through equation at the concrete negative
integer `-7`. -/
theorem negative_values_pass_through_witness :
    safe_int (.vInt (-7)) = -7 :=
  negative_values_pass_through.1 (-7) (by norm_num)

/-- Claim C8: no clamping to [0, 100] — whenever the coerced numerator
exceeds a positive coerced denominator, `pct` reports the faithful value
`n / d * 100`, which is strictly greater than 100; the value is an element
of `ℚ`, hence always a finite rational, never NaN or infinity. -/
theorem pct_not_clamped (n d : Int) (h0 : 0 < d) (h1 : d < n) :
    pct (.vInt n) (.vInt d) = ((n : ℚ) / (d : ℚ)) * 100 ∧
    100 < pct (.vInt n) (.vInt d) := by
  have hdq : (0 : ℚ) < (d : ℚ) := by exact_mod_cast h0
  have heq : pct (.vInt n) (.vInt d) = ((n : ℚ) / (d : ℚ)) * 100 := by
    simp [pct, safe_int, h0.ne']
  refine ⟨heq, ?_⟩
  rw [heq]
  have h2 : (1 : ℚ) < (n : ℚ) / (d : ℚ) :=
    (one_lt_div hdq).mpr (by exact_mod_cast h1)
  linarith

/-- Witness for C8: a delivered count of 250 against 200 total packages
yields a delivery rate of 125%, reported unclamped. -/
theorem pct_not_clamped_witness :
    pct (.vInt 250) (.vInt 200) = (((250 : Int) : ℚ) / ((200 : Int) : ℚ)) * 100 ∧
    100 < pct (.vInt 250) (.vInt 200) :=
  pct_not_clamped 250 200 (by norm_num) (by norm_num)

/-- Claim C3: `validate` returns the empty list exactly when
delivered + returnedTotal does not exceed totalPackages and the four
category counts sum to returnedTotal; the two rules are independent (a
record violating both gets both messages, in order); the mismatch message
is `breakdownMsg`, which interpolates both the computed sum and the stated
total; and the spec's three test records give one, one and zero
violations respectively. -/
theorem validate_characterization :
    (∀ e : Entry, validate e = [] ↔
      (safe_int e.packages_delivered + safe_int e.returned_total ≤
          safe_int e.total_packages ∧
        partsSum e = safe_int e.returned_total))
    ∧ (∀ e : Entry,
        safe_int e.total_packages <
            safe_int e.packages_delivered + safe_int e.returned_total →
          safe_int e.returned_total ≠ partsSum e →
          validate e = [exceedMsg, breakdownMsg (partsSum e) (safe_int e.returned_total)])
    ∧ (∀ e : Entry, safe_int e.returned_total ≠ partsSum e →
        breakdownMsg (partsSum e) (safe_int e.returned_total) ∈ validate e)
    ∧ validate overEntry = [exceedMsg]
    ∧ validate mismatchEntry = [breakdownMsg 12 10]
    ∧ breakdownMsg 12 10 = "Return breakdown (12) must equal Returned total (10)."
    ∧ validate scenarioEntry = [] := by
  refine ⟨fun e => ?_, fun e h1 h2 => ?_, fun e h => ?_,
    by decide, by decide, by decide, by decide⟩
  · simp only [validate, partsSum]
    split_ifs with ha hb <;> simp_all; omega
  · unfold partsSum at h2 ⊢
    simp only [validate]
    rw [if_pos h1, if_pos h2]
    rfl
  · unfold partsSum at h ⊢
    simp only [validate]
    rw [if_pos h]
    simp

/-- Witness for C3: the two conditional conjuncts at concrete records — a
record violating both rules yields both messages, and a mismatching record
contains the breakdown message. -/
theorem validate_characterization_witness :
    validate { baseEntry with
        total_packages := .vInt 10, packages_delivered := .vInt 20,
        returned_total := .vInt 3 } =
      [exceedMsg, breakdownMsg 0 3] ∧
    breakdownMsg 12 10 ∈ validate mismatchEntry := by
  constructor
  · exact validate_characterization.2.1 _ (by decide) (by decide)
  · exact validate_characterization.2.2.1 mismatchEntry (by decide)

/-- Claim C2: the overview metrics are exactly
`pct(delivered, totalPackages)`, `pct(returned, totalPackages)`,
`pct(category, max(returnedTotal, 1))` for the four return categories and
`pct(category, max(violations, 1))` for the three violation categories;
on the spec's end-to-end scenario record they evaluate to 90, 10,
25/25/25/25 and 20/30/50. -/
theorem overview_metrics_formulas :
    (∀ e : Entry,
      (computeOverview e).deliveryRatePct = pct e.packages_delivered e.total_packages ∧
      (computeOverview e).returnRatePct = pct e.returned_total e.total_packages ∧
      (computeOverview e).utaPct =
        pct e.returned_uta (.vInt (max (safe_int e.returned_total) 1)) ∧
      (computeOverview e).bcPct =
        pct e.returned_bc (.vInt (max (safe_int e.returned_total) 1)) ∧
      (computeOverview e).oodtPct =
        pct e.returned_oodt (.vInt (max (safe_int e.returned_total) 1)) ∧
      (computeOverview e).otherPct =
        pct e.returned_other (.vInt (max (safe_int e.returned_total) 1)) ∧
      (computeOverview e).seatbeltPct =
        pct e.seatbelt (.vInt (max (safe_int e.violations) 1)) ∧
      (computeOverview e).speedingPct =
        pct e.speeding (.vInt (max (safe_int e.violations) 1)) ∧
      (computeOverview e).hardBrakingPct =
        pct e.hard_braking (.vInt (max (safe_int e.violations) 1)))
    ∧ (computeOverview scenarioEntry).deliveryRatePct = 90
    ∧ (computeOverview scenarioEntry).returnRatePct = 10
    ∧ (computeOverview scenarioEntry).utaPct = 25
    ∧ (computeOverview scenarioEntry).bcPct = 25
    ∧ (computeOverview scenarioEntry).oodtPct = 25
    ∧ (computeOverview scenarioEntry).otherPct = 25
    ∧ (computeOverview scenarioEntry).seatbeltPct = 20
    ∧ (computeOverview scenarioEntry).speedingPct = 30
    ∧ (computeOverview scenarioEntry).hardBrakingPct = 50 := by
  refine ⟨fun e => ⟨rfl, rfl, rfl, rfl, rfl, rfl, rfl, rfl, rfl⟩,
    ?_, ?_, ?_, ?_, ?_, ?_, ?_, ?_, ?_⟩
  · have : (computeOverview scenarioEntry).deliveryRatePct =
        pct (.vInt 180) (.vInt 200) := rfl
    rw [this]; norm_num [pct, safe_int]
  · have : (computeOverview scenarioEntry).returnRatePct =
        pct (.vInt 20) (.vInt 200) := rfl
    rw [this]; norm_num [pct, safe_int]
  · have : (computeOverview scenarioEntry).utaPct =
        pct (.vInt 5) (.vInt 20) := rfl
    rw [this]; norm_num [pct, safe_int]
  · have : (computeOverview scenarioEntry).bcPct =
        pct (.vInt 5) (.vInt 20) := rfl
    rw [this]; norm_num [pct, safe_int]
  · have : (computeOverview scenarioEntry).oodtPct =
        pct (.vInt 5) (.vInt 20) := rfl
    rw [this]; norm_num [pct, safe_int]
  · have : (computeOverview scenarioEntry).otherPct =
        pct (.vInt 5) (.vInt 20) := rfl
    rw [this]; norm_num [pct, safe_int]
  · have : (computeOverview scenarioEntry).seatbeltPct =
        pct (.vInt 2) (.vInt 10) := rfl
    rw [this]; norm_num [pct, safe_int]
  · have : (computeOverview scenarioEntry).speedingPct =
        pct (.vInt 3) (.vInt 10) := rfl
    rw [this]; norm_num [pct, safe_int]
  · have : (computeOverview scenarioEntry).hardBrakingPct =
        pct (.vInt 5) (.vInt 10) := rfl
    rw [this]; norm_num [pct, safe_int]

/-- Claim C5: whenever the four return-category counts sum to the returned
total and that total is positive, the four category percentages of the
overview sum to exactly 100 (exact rational arithmetic). -/
theorem return_breakdown_sum_100 (e : Entry)
    (h1 : safe_int e.returned_uta + safe_int e.returned_bc +
      safe_int e.returned_oodt + safe_int e.returned_other =
        safe_int e.returned_total)
    (h2 : 0 < safe_int e.returned_total) :
    (computeOverview e).utaPct + (computeOverview e).bcPct +
      (computeOverview e).oodtPct + (computeOverview e).otherPct = 100 := by
  have hmax : max (safe_int e.returned_total) 1 = safe_int e.returned_total :=
    max_eq_left (by omega)
  have hrne : safe_int e.returned_total ≠ 0 := by omega
  have hrq : ((safe_int e.returned_total : Int) : ℚ) ≠ 0 := by exact_mod_cast hrne
  have hpct : ∀ c : Int, pct (.vInt c) (.vInt (safe_int e.returned_total)) =
      ((c : ℚ) / ((safe_int e.returned_total : Int) : ℚ)) * 100 := by
    intro c
    have hred : pct (.vInt c) (.vInt (safe_int e.returned_total)) =
        if safe_int e.returned_total = 0 then 0
        else ((c : ℚ) / ((safe_int e.returned_total : Int) : ℚ)) * 100 := rfl
    rw [hred, if_neg hrne]
  have hshape : (computeOverview e).utaPct + (computeOverview e).bcPct +
      (computeOverview e).oodtPct + (computeOverview e).otherPct =
      pct (.vInt (safe_int e.returned_uta))
          (.vInt (max (safe_int e.returned_total) 1)) +
        pct (.vInt (safe_int e.returned_bc))
          (.vInt (max (safe_int e.returned_total) 1)) +
        pct (.vInt (safe_int e.returned_oodt))
          (.vInt (max (safe_int e.returned_total) 1)) +
        pct (.vInt (safe_int e.returned_other))
          (.vInt (max (safe_int e.returned_total) 1)) := rfl
  have hq : ((safe_int e.returned_uta : Int) : ℚ) + (safe_int e.returned_bc : Int) +
      (safe_int e.returned_oodt : Int) + (safe_int e.returned_other : Int) =
      ((safe_int e.returned_total : Int) : ℚ) := by exact_mod_cast h1
  rw [hshape, hmax, hpct, hpct, hpct, hpct]
  field_simp
  linarith [hq]

/-- Witness for C5: the scenario record (categories 5/5/5/5 against a
returned total of 20) has category percentages summing to 100. -/
theorem return_breakdown_sum_100_witness :
    (computeOverview scenarioEntry).utaPct + (computeOverview scenarioEntry).bcPct +
      (computeOverview scenarioEntry).oodtPct + (computeOverview scenarioEntry).otherPct = 100 :=
  return_breakdown_sum_100 scenarioEntry (by decide) (by decide)

/-- Claim C7: Full Recap rendering is a pure projection — rendering the
same record twice gives identical text, and the output is exactly the
fixed 29 template segments interleaved with the 28 field values (each
field's `str` value inserted verbatim exactly once, unescaped and
untruncated, in the canonical field and section order). -/
theorem render_message_projection (e : Entry) :
    render_message e = render_message e ∧
    render_message e = interleave messageSegments (messageFields e) ∧
    (messageFields e).length = 28 ∧
    messageSegments.length = 29 := by
  refine ⟨rfl, ?_, rfl, rfl⟩
  simp only [messageSegments, messageFields, interleave, render_message,
    String.append_assoc]

/-- Counterexample to claim C6: on a record with a zero returned total but
a UTA category count of 5, the floored path reports 500% while the
calculator's own zero-division fallback reports 0% — the two paths do not
coincide on every record. -/
theorem floor_vs_fallback_cex :
    (computeOverview ce6).utaPct = 500 ∧
    pct ce6.returned_uta ce6.returned_total = 0 ∧
    (computeOverview ce6).utaPct ≠ pct ce6.returned_uta ce6.returned_total := by
  have h1 : (computeOverview ce6).utaPct = 500 := by
    have : (computeOverview ce6).utaPct = pct (.vInt 5) (.vInt 1) := rfl
    rw [this]; norm_num [pct, safe_int]
  have h2 : pct ce6.returned_uta ce6.returned_total = 0 := rfl
  refine ⟨h1, h2, ?_⟩
  rw [h1, h2]
  norm_num

/-- Amended claim C6: the floored category percentage
`pct(cat, max(returnedTotal, 1))` coincides with the fallback path
`pct(cat, returnedTotal)` exactly when the returned total is at least 1 or
the category count is 0; and with the floor, a zero numerator always
yields 0% (in particular when the returned total is zero). -/
theorem floor_vs_fallback_iff :
    (∀ cat r : Int,
      pct (.vInt cat) (.vInt (max r 1)) = pct (.vInt cat) (.vInt r) ↔
        1 ≤ r ∨ cat = 0)
    ∧ (∀ r : Int, pct (.vInt 0) (.vInt (max r 1)) = 0) := by
  have hzero : ∀ d : Int, pct (.vInt 0) (.vInt d) = 0 := by
    intro d
    by_cases hd : d = 0 <;> simp [pct, safe_int, hd]
  have hleft : ∀ cat : Int, pct (.vInt cat) (.vInt 1) = (cat : ℚ) * 100 := by
    intro cat
    norm_num [pct, safe_int]
  have hval : ∀ cat r : Int, r ≠ 0 →
      pct (.vInt cat) (.vInt r) = ((cat : ℚ) / (r : ℚ)) * 100 := by
    intro cat r hr
    have : pct (.vInt cat) (.vInt r) =
        if r = 0 then 0 else ((cat : ℚ) / (r : ℚ)) * 100 := rfl
    rw [this, if_neg hr]
  refine ⟨fun cat r => ⟨fun heq => ?_, fun h => ?_⟩, fun r => ?_⟩
  · by_contra hcon
    push_neg at hcon
    obtain ⟨hr, hcat⟩ := hcon
    have hmax : max r 1 = 1 := max_eq_right (by omega)
    rw [hmax, hleft] at heq
    have hcatq : (cat : ℚ) ≠ 0 := by exact_mod_cast hcat
    by_cases hr0 : r = 0
    · rw [hr0] at heq
      have : pct (.vInt cat) (.vInt 0) = 0 := rfl
      rw [this] at heq
      have : (cat : ℚ) = 0 := by
        rcases mul_eq_zero.mp heq with h | h
        · exact h
        · norm_num at h
      exact hcatq this
    · rw [hval cat r hr0] at heq
      have hrq : (r : ℚ) ≠ 0 := by exact_mod_cast hr0
      field_simp at heq
      have : r = 1 := by exact_mod_cast heq
      omega
  · rcases h with hr | hcat
    · rw [max_eq_left hr]
    · subst hcat
      rw [hzero, hzero]
  · have h1 : (1 : Int) ≤ max r 1 := le_max_right r 1
    rw [hzero]

theorem toString_digit (k : Nat) (h : k < 10) :
    toString k = String.mk [Nat.digitChar k] ∧ (Nat.digitChar k).isDigit = true := by
  interval_cases k <;> exact ⟨by decide, by decide⟩

/-- Amended claim C9: in the overview summary every percentage is rendered
by the one-decimal format (whose output always ends in a point followed by
a single digit), and the delivered and total counts are rendered with
thousands separators — but the return-category counts and the violation
counts are interpolated without separators (plain `str`, the violation
counts verbatim from the raw entry values). -/
theorem overview_formatting_amended (e : Entry) :
    strContains (render_overview e)
      ("• Delivery Rate: " ++ fmt1f (computeOverview e).deliveryRatePct ++ "%") = true ∧
    strContains (render_overview e)
      ("(Delivered " ++ fmtThousands (safe_int e.packages_delivered) ++
        " / Total " ++ fmtThousands (safe_int e.total_packages) ++ ")") = true ∧
    strContains (render_overview e)
      ("UTA " ++ toString (safe_int e.returned_uta) ++ " (") = true ∧
    strContains (render_overview e)
      ("Seatbelt " ++ pyStr e.seatbelt ++ " (") = true ∧
    (∀ q : ℚ, ∃ (s : String) (c : Char),
      fmt1f q = s ++ ("." ++ String.mk [c]) ∧ c.isDigit = true) := by
  refine ⟨?_, ?_, ?_, ?_, ?_⟩
  · apply strContains_of_eq _ (overviewLine1 e ++ "\n")
      ("• Delivery Rate: " ++ fmt1f (computeOverview e).deliveryRatePct ++ "%")
      ("  |  Return Rate: " ++ fmt1f (computeOverview e).returnRatePct ++
        "%  (Delivered " ++ fmtThousands (safe_int e.packages_delivered) ++
        " / Total " ++ fmtThousands (safe_int e.total_packages) ++ ")" ++ "\n" ++
        overviewLine3 e ++ "\n" ++ overviewLine4 e)
    simp only [render_overview, overviewLine2, String.append_assoc]
    rw [(by decide : ("%  |  Return Rate: " : String) = "%" ++ "  |  Return Rate: ")]
    simp only [String.append_assoc]
  · apply strContains_of_eq _
      (overviewLine1 e ++ "\n" ++ "• Delivery Rate: " ++
        fmt1f (computeOverview e).deliveryRatePct ++ "%  |  Return Rate: " ++
        fmt1f (computeOverview e).returnRatePct ++ "%  ")
      ("(Delivered " ++ fmtThousands (safe_int e.packages_delivered) ++
        " / Total " ++ fmtThousands (safe_int e.total_packages) ++ ")")
      ("\n" ++ overviewLine3 e ++ "\n" ++ overviewLine4 e)
    simp only [render_overview, overviewLine2, String.append_assoc]
    rw [(by decide : ("%  (Delivered " : String) = "%  " ++ "(Delivered ")]
    simp only [String.append_assoc]
  · apply strContains_of_eq _
      (overviewLine1 e ++ "\n" ++ overviewLine2 e ++ "\n" ++ "• Return Breakdown: ")
      ("UTA " ++ toString (safe_int e.returned_uta) ++ " (")
      (fmt1f (computeOverview e).utaPct ++
        "%) | BC " ++ toString (safe_int e.returned_bc) ++
        " (" ++ fmt1f (computeOverview e).bcPct ++
        "%) | OODT " ++ toString (safe_int e.returned_oodt) ++
        " (" ++ fmt1f (computeOverview e).oodtPct ++
        "%) | Other " ++ toString (safe_int e.returned_other) ++
        " (" ++ fmt1f (computeOverview e).otherPct ++ "%)" ++ "\n" ++
        overviewLine4 e)
    simp only [render_overview, overviewLine3, String.append_assoc]
    rw [(by decide :
      ("• Return Breakdown: UTA " : String) = "• Return Breakdown: " ++ "UTA ")]
    simp only [String.append_assoc]
  · apply strContains_of_eq _
      (overviewLine1 e ++ "\n" ++ overviewLine2 e ++ "\n" ++ overviewLine3 e ++
        "\n" ++ "• Violations: " ++ toString (safe_int e.violations) ++ "  → ")
      ("Seatbelt " ++ pyStr e.seatbelt ++ " (")
      (fmt1f (computeOverview e).seatbeltPct ++
        "%) | Speeding " ++ pyStr e.speeding ++
        " (" ++ fmt1f (computeOverview e).speedingPct ++
        "%) | Hard Braking " ++ pyStr e.hard_braking ++
        " (" ++ fmt1f (computeOverview e).hardBrakingPct ++ "%)")
    simp only [render_overview, overviewLine4, String.append_assoc]
    rw [(by decide : ("  → Seatbelt " : String) = "  → " ++ "Seatbelt ")]
    simp only [String.append_assoc]
  · intro q
    obtain ⟨h1, h2⟩ := toString_digit ((rheDiv (q.num * 10) (q.den : Int)).natAbs % 10)
      (Nat.mod_lt _ (by norm_num))
    refine ⟨(if rheDiv (q.num * 10) (q.den : Int) < 0 then "-" else "") ++
        toString ((rheDiv (q.num * 10) (q.den : Int)).natAbs / 10),
      Nat.digitChar ((rheDiv (q.num * 10) (q.den : Int)).natAbs % 10), ?_, h2⟩
    simp only [fmt1f]
    rw [h1]
    simp [String.append_assoc]

set_option maxRecDepth 100000 in
theorem render_overview_ce9_eval :
    render_overview ce9 =
      "OVERVIEW – Mon 2025-01-01\n• Delivery Rate: 0.0%  |  Return Rate: 0.0%  (Delivered 0 / Total 0)\n• Return Breakdown: UTA 1234 (100.0%) | BC 0 (0.0%) | OODT 0 (0.0%) | Other 0 (0.0%)\n• Violations: 0  → Seatbelt 0 (0.0%) | Speeding 0 (0.0%) | Hard Braking 0 (0.0%)" := by
  have hA : (computeOverview ce9).utaPct = 100 := by
    have h : (computeOverview ce9).utaPct = pct (.vInt 1234) (.vInt 1234) := rfl
    rw [h]; norm_num [pct, safe_int]
  have hB : (computeOverview ce9).bcPct = 0 := by
    have h : (computeOverview ce9).bcPct = pct (.vInt 0) (.vInt 1234) := rfl
    rw [h]; norm_num [pct, safe_int]
  have hC : (computeOverview ce9).oodtPct = 0 := by
    have h : (computeOverview ce9).oodtPct = pct (.vInt 0) (.vInt 1234) := rfl
    rw [h]; norm_num [pct, safe_int]
  have hD : (computeOverview ce9).otherPct = 0 := by
    have h : (computeOverview ce9).otherPct = pct (.vInt 0) (.vInt 1234) := rfl
    rw [h]; norm_num [pct, safe_int]
  have hE : (computeOverview ce9).seatbeltPct = 0 := by
    have h : (computeOverview ce9).seatbeltPct = pct (.vInt 0) (.vInt 1) := rfl
    rw [h]; norm_num [pct, safe_int]
  have hF : (computeOverview ce9).speedingPct = 0 := by
    have h : (computeOverview ce9).speedingPct = pct (.vInt 0) (.vInt 1) := rfl
    rw [h]; norm_num [pct, safe_int]
  have hG : (computeOverview ce9).hardBrakingPct = 0 := by
    have h : (computeOverview ce9).hardBrakingPct = pct (.vInt 0) (.vInt 1) := rfl
    rw [h]; norm_num [pct, safe_int]
  simp only [render_overview, overviewLine1, overviewLine2, overviewLine3,
    overviewLine4]
  rw [hA, hB, hC, hD, hE, hF, hG]
  decide

set_option maxRecDepth 100000 in
/-- Counterexample to claim C9: on a record whose UTA count is 1234, the
overview renders the count as `UTA 1234` — the thousands-separated form
`1,234` appears nowhere in the output, although the thousands format would
produce it.  Counts other than delivered/total are not separator-formatted. -/
theorem overview_thousands_cex :
    fmtThousands 1234 = "1,234" ∧
    strContains (render_overview ce9) "1,234" = false ∧
    strContains (render_overview ce9)
      ("UTA " ++ fmtThousands (safe_int ce9.returned_uta) ++ " (") = false ∧
    strContains (render_overview ce9)
      ("UTA " ++ toString (safe_int ce9.returned_uta) ++ " (") = true := by
  refine ⟨by decide, ?_, ?_, ?_⟩
  · rw [render_overview_ce9_eval]; decide
  · rw [render_overview_ce9_eval]; decide
  · rw [render_overview_ce9_eval]; decide
